import Mathlib

/-!
# Verification of the tauri-plugin-notifications scheduling and adapter logic

Shallow embedding of the plugin's Rust sources (`src/windows.rs`,
`src/desktop.rs`, `src/macos.rs`, `src/models.rs`) in Lean 4, together with
theorems settling the specification claims about schedule-to-native-instant
conversion, Windows FILETIME tick arithmetic, channel capability negotiation,
toast XML construction, default notification ids, event emission, and
`ScheduleEvery` serialization.

Machine integers are modelled as `Int`/`Nat` with explicit range constants.
Rust's `i128` division (`/`, truncation toward zero) is modelled by
`rustDiv`; Lean's `/` on `Int` is euclidean division, so truncation is
defined explicitly.
-/

namespace TauriNotifications

/-- Minimum value of a Rust `i64`. -/
def i64Min : Int := -(2 ^ 63)

/-- Maximum value of a Rust `i64`. -/
def i64Max : Int := 2 ^ 63 - 1

/-- Rust integer division on `i128`: truncation toward zero.
For a nonnegative dividend it agrees with euclidean division; for a negative
dividend it is the negation of the euclidean quotient of the negation
(the divisor is positive at every use site in the source). -/
def rustDiv (a b : Int) : Int := if 0 ≤ a then a / b else -((-a) / b)

/-- From `src/windows.rs`:
`const WINDOWS_EPOCH_OFFSET_TICKS: i128 = 116_444_736_000_000_000;`
Windows FILETIME epoch (January 1, 1601) offset from the Unix epoch
(January 1, 1970) in 100-nanosecond ticks. -/
def WINDOWS_EPOCH_OFFSET_TICKS : Int := 116444736000000000

/-- Smallest unix-nanosecond timestamp representable by the `time` crate's
`OffsetDateTime` (year -9999): `-9999-01-01T00:00:00Z`.
`-377705116800` seconds times `10^9`. -/
def odtMinNanos : Int := -377705116800 * 1000000000

/-- Largest unix-nanosecond timestamp representable by the `time` crate's
`OffsetDateTime` (year 9999): `9999-12-31T23:59:59.999999999Z`.
`253402300800` seconds times `10^9`, minus one nanosecond. -/
def odtMaxNanos : Int := 253402300800 * 1000000000 - 1

/-- The tick value computed inside `unix_to_windows_datetime` in
`src/windows.rs`: `(unix_nanos / 100) + WINDOWS_EPOCH_OFFSET_TICKS`
(Rust `i128` arithmetic, division truncating toward zero). -/
def unixToWindowsTicks (unixNanos : Int) : Int :=
  rustDiv unixNanos 100 + WINDOWS_EPOCH_OFFSET_TICKS

/-- From `src/windows.rs` `unix_to_windows_datetime`: converts a unix
timestamp (in nanoseconds, as produced by `unix_timestamp_nanos()`) to a
Windows `DateTime` tick count. The `try_into::<i64>()` failure branch is the
`Err` case, returning the "Schedule date out of range" error. -/
def unix_to_windows_datetime (unixNanos : Int) : Except String Int :=
  let windowsTicks := unixToWindowsTicks unixNanos
  if i64Min ≤ windowsTicks ∧ windowsTicks ≤ i64Max then .ok windowsTicks
  else .error "Schedule date out of range"

/-- From `src/windows.rs` `windows_datetime_to_unix`: converts a Windows
`DateTime` tick count back to a unix-nanosecond timestamp. The
`from_unix_timestamp_nanos` failure (value outside the `OffsetDateTime`
range) is the `Err` case. -/
def windows_datetime_to_unix (ticks : Int) : Except String Int :=
  let unixNanos := (ticks - WINDOWS_EPOCH_OFFSET_TICKS) * 100
  if odtMinNanos ≤ unixNanos ∧ unixNanos ≤ odtMaxNanos then .ok unixNanos
  else .error "DateTime out of range"

/-- From `src/models.rs`: the `ScheduleEvery` enum. -/
inductive ScheduleEvery where
  | year
  | month
  | twoWeeks
  | week
  | day
  | hour
  | minute
  | second
deriving DecidableEq, Repr

/-- From `src/models.rs`: the `ScheduleInterval` struct. Every field is an
`Option<u8>` in the source; values are in `0..=255`. -/
structure ScheduleInterval where
  year : Option Nat := none
  month : Option Nat := none
  day : Option Nat := none
  weekday : Option Nat := none
  hour : Option Nat := none
  minute : Option Nat := none
  second : Option Nat := none
deriving DecidableEq, Repr

/-- From `src/models.rs`: the `Schedule` enum. The `At` date is kept as a
unix-nanosecond timestamp (the `OffsetDateTime` value). `count` is a `u8`. -/
inductive Schedule where
  | atDate (date : Int) (repeating : Bool) (allowWhileIdle : Bool)
  | interval (interval : ScheduleInterval) (allowWhileIdle : Bool)
  | every (interval : ScheduleEvery) (count : Nat) (allowWhileIdle : Bool)
deriving DecidableEq, Repr

/-- The `base_seconds` match inside `schedule_to_datetime` in
`src/windows.rs` (lines 388-397). -/
def ScheduleEvery.baseSeconds : ScheduleEvery → Int
  | .year => 365 * 86400
  | .month => 30 * 86400
  | .twoWeeks => 14 * 86400
  | .week => 7 * 86400
  | .day => 86400
  | .hour => 3600
  | .minute => 60
  | .second => 1

/-- The `total_seconds` computation inside `schedule_to_datetime` in
`src/windows.rs` (lines 378-382): `seconds + minutes*60 + hours*3600 +
days*86400`, absent components defaulting to 0 via `unwrap_or(0)`. -/
def ScheduleInterval.totalSeconds (i : ScheduleInterval) : Int :=
  (i.second.getD 0 : Int) + (i.minute.getD 0 : Int) * 60 +
    (i.hour.getD 0 : Int) * 3600 + (i.day.getD 0 : Int) * 86400

/-- From `src/windows.rs` `schedule_to_datetime`: computes the delivery time
and converts it to a Windows `DateTime`. The current time (read from
`OffsetDateTime::now_utc()` in the source) is passed explicitly as a
unix-nanosecond timestamp; `now + Duration::seconds(n)` adds exactly
`n * 10^9` nanoseconds. -/
def schedule_to_datetime (schedule : Schedule) (nowNanos : Int) :
    Except String Int :=
  let deliveryTimeNanos :=
    match schedule with
    | .atDate date _ _ => date
    | .interval i _ => nowNanos + i.totalSeconds * 1000000000
    | .every i count _ => nowNanos + i.baseSeconds * (count : Int) * 1000000000
  unix_to_windows_datetime deliveryTimeNanos

/-! ## Arithmetic helper lemmas for the tick conversion -/

/-- Truncating division by 100 recovers the dividend to within 99, and the
truncation always moves toward zero (never away from the dividend's sign). -/
theorem rustDiv_hundred_bounds (x : Int) :
    (0 ≤ x → x - 99 ≤ rustDiv x 100 * 100 ∧ rustDiv x 100 * 100 ≤ x) ∧
      (x < 0 → x ≤ rustDiv x 100 * 100 ∧ rustDiv x 100 * 100 ≤ x + 99) := by
  unfold rustDiv
  split <;> constructor <;> intro h <;> constructor <;> omega

/-- Truncating division by 100 is exact on multiples of 100. -/
theorem rustDiv_hundred_exact (x : Int) (h : x % 100 = 0) :
    rustDiv x 100 * 100 = x := by
  unfold rustDiv
  split <;> omega

/-- Round-trip of the tick conversion: for any unix-nanosecond timestamp in
the `OffsetDateTime` range, to-ticks succeeds, back-conversion succeeds, the
result is within 99 ns of the input, and it is exact when the input is a
multiple of 100 ns. -/
theorem tick_roundtrip (d : Int) (h1 : odtMinNanos ≤ d) (h2 : d ≤ odtMaxNanos) :
    ∃ w u, unix_to_windows_datetime d = .ok w ∧
      windows_datetime_to_unix w = .ok u ∧
      d - 99 ≤ u ∧ u ≤ d + 99 ∧ (d % 100 = 0 → u = d) := by
  have hb := rustDiv_hundred_bounds d
  unfold odtMinNanos at h1
  unfold odtMaxNanos at h2
  refine ⟨unixToWindowsTicks d, rustDiv d 100 * 100, ?_, ?_, ?_, ?_, ?_⟩
  · unfold unix_to_windows_datetime
    rw [if_pos]
    unfold unixToWindowsTicks WINDOWS_EPOCH_OFFSET_TICKS i64Min i64Max
    constructor <;> omega
  · unfold windows_datetime_to_unix unixToWindowsTicks
    rw [show rustDiv d 100 + WINDOWS_EPOCH_OFFSET_TICKS -
        WINDOWS_EPOCH_OFFSET_TICKS = rustDiv d 100 by ring, if_pos]
    unfold odtMinNanos odtMaxNanos
    constructor <;> omega
  · omega
  · omega
  · exact fun h => rustDiv_hundred_exact d h

/-- The tick value is in `i64` range exactly when the unix-nanosecond
timestamp lies strictly between the two explicit overflow thresholds. -/
theorem unixToWindowsTicks_range_iff (t : Int) :
    (i64Min ≤ unixToWindowsTicks t ∧ unixToWindowsTicks t ≤ i64Max) ↔
      (-933981677285477580900 < t ∧ t < 910692730085477580800) := by
  have hb := rustDiv_hundred_bounds t
  unfold unixToWindowsTicks WINDOWS_EPOCH_OFFSET_TICKS i64Min i64Max
  constructor <;> intro h <;> constructor <;> omega

/-- Every `ScheduleEvery` base-second count is positive. -/
theorem baseSeconds_pos (i : ScheduleEvery) : 0 < i.baseSeconds := by
  cases i <;> norm_num [ScheduleEvery.baseSeconds]

/-- C1: for every `Schedule::Every { interval, count }` and every current
time `now` (with the delivery time inside the representable datetime range),
`schedule_to_datetime` succeeds and the resulting native instant, converted
back, equals `now + base_seconds(interval) * count` seconds to within the
100 ns tick granularity; in particular `Every{Day, 1}` lands within
`[now + 86400 s - 2 s, now + 86400 s + 2 s]`. -/
theorem every_schedule_conversion (i : ScheduleEvery) (c : Nat) (aw : Bool)
    (now : Int) (hc : c ≤ 255) (h1 : odtMinNanos ≤ now)
    (h2 : now + i.baseSeconds * (c : Int) * 1000000000 ≤ odtMaxNanos) :
    ∃ w u, schedule_to_datetime (.every i c aw) now = .ok w ∧
      windows_datetime_to_unix w = .ok u ∧
      now + i.baseSeconds * (c : Int) * 1000000000 - 99 ≤ u ∧
      u ≤ now + i.baseSeconds * (c : Int) * 1000000000 + 99 ∧
      (i = .day ∧ c = 1 →
        now + 86400 * 1000000000 - 2 * 1000000000 ≤ u ∧
        u ≤ now + 86400 * 1000000000 + 2 * 1000000000) := by
  have hbase : (0 : Int) ≤ i.baseSeconds := le_of_lt (baseSeconds_pos i)
  have hdelta : (0 : Int) ≤ i.baseSeconds * (c : Int) * 1000000000 := by
    have := Int.natCast_nonneg c
    positivity
  obtain ⟨w, u, hw, hu, hl, hr, _⟩ :=
    tick_roundtrip (now + i.baseSeconds * (c : Int) * 1000000000)
      (by omega) h2
  refine ⟨w, u, ?_, hu, hl, hr, ?_⟩
  · simpa [schedule_to_datetime] using hw
  · rintro ⟨rfl, rfl⟩
    norm_num [ScheduleEvery.baseSeconds] at hl hr
    omega

/-- C1 witness: `Every{Day, 1}` at `now = 0`. -/
theorem every_schedule_conversion_witness :
    ∃ w u, schedule_to_datetime (.every .day 1 false) 0 = .ok w ∧
      windows_datetime_to_unix w = .ok u ∧
      0 + ScheduleEvery.day.baseSeconds * ((1 : Nat) : Int) * 1000000000 -
        99 ≤ u ∧
      u ≤ 0 + ScheduleEvery.day.baseSeconds * ((1 : Nat) : Int) *
        1000000000 + 99 ∧
      (ScheduleEvery.day = .day ∧ (1 : Nat) = 1 →
        0 + 86400 * 1000000000 - 2 * 1000000000 ≤ u ∧
        u ≤ 0 + 86400 * 1000000000 + 2 * 1000000000) :=
  every_schedule_conversion .day 1 false 0 (by norm_num)
    (by norm_num [odtMinNanos])
    (by norm_num [odtMaxNanos, ScheduleEvery.baseSeconds])

/-- C2: for every `Schedule::Interval`, `schedule_to_datetime` adds
`second + minute*60 + hour*3600 + day*86400` seconds to `now` (absent
components counting as 0, exact to the 100 ns tick granularity), and the
`year`, `month`, and `weekday` components have no effect: two intervals
agreeing on day/hour/minute/second convert identically for the same `now`. -/
theorem interval_schedule_conversion (iv iv₂ : ScheduleInterval) (aw : Bool)
    (now : Int) (h1 : odtMinNanos ≤ now)
    (h2 : now + iv.totalSeconds * 1000000000 ≤ odtMaxNanos) :
    (∃ w u, schedule_to_datetime (.interval iv aw) now = .ok w ∧
      windows_datetime_to_unix w = .ok u ∧
      now + ((iv.second.getD 0 : Int) + (iv.minute.getD 0 : Int) * 60 +
        (iv.hour.getD 0 : Int) * 3600 + (iv.day.getD 0 : Int) * 86400) *
        1000000000 - 99 ≤ u ∧
      u ≤ now + ((iv.second.getD 0 : Int) + (iv.minute.getD 0 : Int) * 60 +
        (iv.hour.getD 0 : Int) * 3600 + (iv.day.getD 0 : Int) * 86400) *
        1000000000 + 99) ∧
    (iv.day = iv₂.day → iv.hour = iv₂.hour → iv.minute = iv₂.minute →
      iv.second = iv₂.second →
      schedule_to_datetime (.interval iv aw) now =
        schedule_to_datetime (.interval iv₂ aw) now) := by
  constructor
  · have hdelta : (0 : Int) ≤ iv.totalSeconds := by
      unfold ScheduleInterval.totalSeconds
      have hs := Int.natCast_nonneg (iv.second.getD 0)
      have hm := Int.natCast_nonneg (iv.minute.getD 0)
      have hh := Int.natCast_nonneg (iv.hour.getD 0)
      have hd := Int.natCast_nonneg (iv.day.getD 0)
      omega
    obtain ⟨w, u, hw, hu, hl, hr, _⟩ :=
      tick_roundtrip (now + iv.totalSeconds * 1000000000) (by omega) h2
    exact ⟨w, u, by simpa [schedule_to_datetime] using hw, hu,
      by simpa [ScheduleInterval.totalSeconds] using hl,
      by simpa [ScheduleInterval.totalSeconds] using hr⟩
  · intro hd hh hm hs
    simp [schedule_to_datetime, ScheduleInterval.totalSeconds, hd, hh, hm, hs]

/-- C2 witness: interval `{day:1, hour:2, minute:30, second:45}` versus the
same components with different year/month/weekday, at `now = 0`. -/
theorem interval_schedule_conversion_witness :
    (∃ w u, schedule_to_datetime
        (.interval ⟨none, none, some 1, none, some 2, some 30, some 45⟩
          false) 0 = .ok w ∧
      windows_datetime_to_unix w = .ok u ∧
      0 + (((some 45 : Option Nat).getD 0 : Int) +
        ((some 30 : Option Nat).getD 0 : Int) * 60 +
        ((some 2 : Option Nat).getD 0 : Int) * 3600 +
        ((some 1 : Option Nat).getD 0 : Int) * 86400) * 1000000000 - 99 ≤
        u ∧
      u ≤ 0 + (((some 45 : Option Nat).getD 0 : Int) +
        ((some 30 : Option Nat).getD 0 : Int) * 60 +
        ((some 2 : Option Nat).getD 0 : Int) * 3600 +
        ((some 1 : Option Nat).getD 0 : Int) * 86400) * 1000000000 + 99) ∧
    ((some 1 : Option Nat) = some 1 → (some 2 : Option Nat) = some 2 →
      (some 30 : Option Nat) = some 30 → (some 45 : Option Nat) = some 45 →
      schedule_to_datetime
        (.interval ⟨none, none, some 1, none, some 2, some 30, some 45⟩
          false) 0 =
      schedule_to_datetime
        (.interval ⟨some 7, some 12, some 1, some 3, some 2, some 30,
          some 45⟩ false) 0) :=
  interval_schedule_conversion
    ⟨none, none, some 1, none, some 2, some 30, some 45⟩
    ⟨some 7, some 12, some 1, some 3, some 2, some 30, some 45⟩ false 0
    (by norm_num [odtMinNanos])
    (by norm_num [odtMaxNanos, ScheduleInterval.totalSeconds])

/-- C3: the Windows epoch offset constant equals 134774 days expressed in
100-nanosecond ticks, and the tick conversion round-trips: any in-range
timestamp is recovered to within 100 ns, exactly when its sub-second part
is a multiple of 100 ns. -/
theorem windows_epoch_offset_roundtrip :
    WINDOWS_EPOCH_OFFSET_TICKS = 134774 * (24 * 60 * 60 * 10000000) ∧
    ∀ t : Int, odtMinNanos ≤ t → t ≤ odtMaxNanos →
      ∃ w u, unix_to_windows_datetime t = .ok w ∧
        windows_datetime_to_unix w = .ok u ∧
        t - 99 ≤ u ∧ u ≤ t + 99 ∧ (t % 100 = 0 → u = t) :=
  ⟨by norm_num [WINDOWS_EPOCH_OFFSET_TICKS],
   fun t h1 h2 => tick_roundtrip t h1 h2⟩

/-- C3 witness: the timestamp `2024-06-15T14:30:45Z` (1718461845 s), a
multiple of 100 ns, round-trips exactly. -/
theorem windows_epoch_offset_roundtrip_witness :
    WINDOWS_EPOCH_OFFSET_TICKS = 134774 * (24 * 60 * 60 * 10000000) ∧
    ∃ w u, unix_to_windows_datetime 1718461845000000000 = .ok w ∧
      windows_datetime_to_unix w = .ok u ∧
      (1718461845000000000 : Int) - 99 ≤ u ∧
      u ≤ 1718461845000000000 + 99 ∧
      ((1718461845000000000 : Int) % 100 = 0 → u = 1718461845000000000) :=
  ⟨windows_epoch_offset_roundtrip.1,
   windows_epoch_offset_roundtrip.2 1718461845000000000
     (by norm_num [odtMinNanos]) (by norm_num [odtMaxNanos])⟩

/-- C4: `unix_to_windows_datetime` returns `Ok` with the exact (untruncated)
tick value precisely when the tick value fits in `i64` — equivalently, when
the timestamp lies strictly between the two overflow thresholds — and
returns the "Schedule date out of range" error otherwise; it is a total
function (never a panic). -/
theorem unix_to_windows_overflow (t : Int) :
    (unix_to_windows_datetime t =
        .ok (rustDiv t 100 + WINDOWS_EPOCH_OFFSET_TICKS) ↔
      -933981677285477580900 < t ∧ t < 910692730085477580800) ∧
    (unix_to_windows_datetime t = .error "Schedule date out of range" ↔
      (910692730085477580800 ≤ t ∨ t ≤ -933981677285477580900)) := by
  have hiff := unixToWindowsTicks_range_iff t
  by_cases hc : i64Min ≤ unixToWindowsTicks t ∧ unixToWindowsTicks t ≤ i64Max
  · rw [show unix_to_windows_datetime t = .ok (unixToWindowsTicks t) by
      unfold unix_to_windows_datetime
      exact if_pos hc]
    have hrange := hiff.mp hc
    constructor
    · simp only [Except.ok.injEq]
      exact ⟨fun _ => hrange, fun _ => rfl⟩
    · constructor
      · intro h
        exact absurd h (by simp)
      · intro h
        omega
  · rw [show unix_to_windows_datetime t =
        .error "Schedule date out of range" by
      unfold unix_to_windows_datetime
      exact if_neg hc]
    have hrange : ¬(-933981677285477580900 < t ∧
        t < 910692730085477580800) := fun h => hc (hiff.mpr h)
    constructor
    · constructor
      · intro h
        exact absurd h (by simp)
      · intro h
        omega
    · exact ⟨fun _ => by omega, fun _ => rfl⟩

/-! ## Data model (`src/models.rs`) -/

/-- Minimal JSON value model for `serde_json::Value` payload maps carried
opaquely through the plugin (the `extra` map). Numbers are restricted to the
integer values the plugin itself produces. -/
inductive JsonValue where
  | null
  | bool (b : Bool)
  | num (n : Int)
  | str (s : String)
  | arr (xs : List JsonValue)
  | obj (fields : List (String × JsonValue))

/-- From `src/models.rs`: the `Attachment` struct (`id` and `url`; the URL
is kept as its string form). -/
structure Attachment where
  id : String
  url : String
deriving DecidableEq, Repr

/-- From `src/models.rs`: the `Action` struct. -/
structure Action where
  id : String
  title : String
  requires_authentication : Bool := false
  foreground : Bool := false
  destructive : Bool := false
  input : Bool := false
  input_button_title : Option String := none
  input_placeholder : Option String := none
deriving DecidableEq, Repr

/-- From `src/models.rs`: the `ActionType` struct. -/
structure ActionType where
  id : String
  actions : List Action
  hidden_previews_body_placeholder : Option String := none
  custom_dismiss_action : Bool := false
  allow_in_car_play : Bool := false
  hidden_previews_show_title : Bool := false
  hidden_previews_show_subtitle : Bool := false
deriving DecidableEq, Repr

/-- From `src/models.rs`: the `Channel` struct (Android channel model). -/
structure Channel where
  id : String
  name : String
  description : Option String := none
  sound : Option String := none
  lights : Option Bool := none
  light_color : Option String := none
  vibration : Option Bool := none
  importance : Option Nat := none
  visibility : Option Int := none
deriving DecidableEq, Repr

/-- Interpret a natural number as a Rust `i32` value (two's complement of
the low 32 bits). -/
def i32OfBits (bits : Nat) : Int :=
  let b : Nat := bits % 2 ^ 32
  if b < 2 ^ 31 then (b : Int) else (b : Int) - 2 ^ 32

/-- From `src/models.rs` (lines 195-197): `fn default_id() -> i32 {
rand::random() }`. The random draw is modelled explicitly as the 32 raw bits
produced by the RNG; `rand::random::<i32>()` maps them to an `i32` by
two's-complement reinterpretation, uniformly over all `2^32` values. -/
def default_id (randomBits : Nat) : Int := i32OfBits randomBits

/-- From `src/models.rs`: the `NotificationData` struct. -/
structure NotificationData where
  id : Int
  channel_id : Option String := none
  title : Option String := none
  body : Option String := none
  schedule : Option Schedule := none
  large_body : Option String := none
  summary : Option String := none
  action_type_id : Option String := none
  group : Option String := none
  group_summary : Bool := false
  sound : Option String := none
  inbox_lines : List String := []
  icon : Option String := none
  large_icon : Option String := none
  icon_color : Option String := none
  attachments : List Attachment := []
  extra : List (String × JsonValue) := []
  ongoing : Bool := false
  auto_cancel : Bool := false
  silent : Bool := false

/-- From `src/models.rs` (lines 199-224): `impl Default for
NotificationData`, with `id: default_id()` and every other field at its
empty/false/`None` default. The RNG draw feeding `default_id` is passed
explicitly. The serde `#[serde(default = "default_id")]` attribute uses the
same function when deserializing a payload without an explicit id. -/
def NotificationData.mkDefault (randomBits : Nat) : NotificationData :=
  { id := default_id randomBits }

/-- From `src/models.rs`: the `ActiveNotification` struct. The `data` map is
`HashMap<String, String>` in the source. -/
structure ActiveNotification where
  id : Int
  tag : Option String := none
  title : Option String := none
  body : Option String := none
  group : Option String := none
  group_summary : Bool := false
  data : List (String × String) := []
  extra : List (String × JsonValue) := []
  attachments : List Attachment := []
  action_type_id : Option String := none
  schedule : Option Schedule := none
  sound : Option String := none

/-! ## Toast XML construction (`src/windows.rs` `build_toast_xml`) -/

/-- XML DOM model for the toast document built with the Windows
`XmlDocument` API: elements with attributes and children, plus text nodes
(created by `SetInnerText`). -/
inductive XmlNode where
  | element (name : String) (attrs : List (String × String))
      (children : List XmlNode)
  | text (s : String)

/-- Children of an element node (a text node has none). -/
def XmlNode.children : XmlNode → List XmlNode
  | .element _ _ cs => cs
  | .text _ => []

/-- Whether a node is an element with the given tag name. -/
def XmlNode.isElem (n : String) : XmlNode → Bool
  | .element m _ _ => m = n
  | .text _ => false

/-- The `<action>` element built for one `Action` inside the `<actions>`
row (`src/windows.rs` lines 225-239): attributes `content` (the action
title), `arguments` (the action id), and `activationType` (`"foreground"`
or `"background"` from the `foreground` flag). -/
def actionElement (a : Action) : XmlNode :=
  .element "action"
    [("content", a.title), ("arguments", a.id),
     ("activationType", if a.foreground then "foreground" else "background")]
    []

/-- From `src/windows.rs` `NotificationsBuilder::build_toast_xml`
(lines 158-257): builds the `<toast>` document from the notification data
and the registered action types. The WinRT DOM calls are infallible in this
model (each `?` in the source only propagates WinRT allocation failures);
the structure built is:
`<toast><visual><binding template="ToastGeneric"> title/body/largeBody
texts, icon image, attachment images </binding></visual>` then an
`<actions>` row only when `action_type_id` is set *and* registered, then an
`<audio>` element when silent or a sound is set. The action-type registry
(`HashMap<String, ActionType>`) is modelled as an association list with
unique keys, looked up with `List.lookup`. -/
def build_toast_xml (data : NotificationData)
    (action_types : List (String × ActionType)) : XmlNode :=
  let titleNodes := match data.title with
    | some t => [XmlNode.element "text" [] [.text t]]
    | none => []
  let bodyNodes := match data.body with
    | some b => [XmlNode.element "text" [] [.text b]]
    | none => []
  let largeBodyNodes := match data.large_body with
    | some lb => [XmlNode.element "text" [] [.text lb]]
    | none => []
  let iconNodes := match data.icon with
    | some icon =>
      [XmlNode.element "image"
        [("placement", "appLogoOverride"), ("src", icon)] []]
    | none => []
  let attachmentNodes := data.attachments.enum.map fun p =>
    XmlNode.element "image"
      ((if p.1 = 0 then [("placement", "hero")] else []) ++
        [("src", p.2.url)]) []
  let binding := XmlNode.element "binding" [("template", "ToastGeneric")]
    (titleNodes ++ bodyNodes ++ largeBodyNodes ++ iconNodes ++
      attachmentNodes)
  let visual := XmlNode.element "visual" [] [binding]
  let actionsNodes := match data.action_type_id with
    | some action_type_id =>
      match action_types.lookup action_type_id with
      | some action_type =>
        [XmlNode.element "actions" [] (action_type.actions.map actionElement)]
      | none => []
    | none => []
  let audioNodes :=
    if data.silent then [XmlNode.element "audio" [("silent", "true")] []]
    else match data.sound with
      | some sound => [XmlNode.element "audio" [("src", sound)] []]
      | none => []
  XmlNode.element "toast" [] ([visual] ++ actionsNodes ++ audioNodes)

/-! ## Platform adapter channel operations (C5) -/

/-- From `src/windows.rs` `Notifications::create_channel` (lines 630-635):
unconditionally an error naming the platform. -/
def windows_create_channel (_channel : Channel) : Except String Unit :=
  .error "Notification channels are not supported on Windows"

/-- From `src/windows.rs` `Notifications::delete_channel` (lines 637-642). -/
def windows_delete_channel (_id : String) : Except String Unit :=
  .error "Notification channels are not supported on Windows"

/-- From `src/windows.rs` `Notifications::list_channels` (lines 644-649). -/
def windows_list_channels : Except String (List Channel) :=
  .error "Notification channels are not supported on Windows"

/-- From `src/desktop.rs` `Notifications::create_channel` (lines 116-120):
unconditionally an error naming the notify-rust backend. -/
def desktop_create_channel (_channel : Channel) : Except String Unit :=
  .error "Notification channels are not supported with notify-rust"

/-- From `src/desktop.rs` `Notifications::delete_channel` (lines 122-126). -/
def desktop_delete_channel (_id : String) : Except String Unit :=
  .error "Notification channels are not supported with notify-rust"

/-- From `src/desktop.rs` `Notifications::list_channels` (lines 128-132). -/
def desktop_list_channels : Except String (List Channel) :=
  .error "Notification channels are not supported with notify-rust"

/-- From `src/macos.rs` `Notifications::create_channel` (lines 321-326). -/
def macos_create_channel (_channel : Channel) : Except String Unit :=
  .error "Notification channels are not supported on macOS"

/-- From `src/macos.rs` `Notifications::delete_channel` (lines 328-333). -/
def macos_delete_channel (_id : String) : Except String Unit :=
  .error "Notification channels are not supported on macOS"

/-- From `src/macos.rs` `Notifications::list_channels` (lines 335-340). -/
def macos_list_channels : Except String (List Channel) :=
  .error "Notification channels are not supported on macOS"

/-! ## Event emission (`listeners::trigger` call sites, C8/C9) -/

/-- The payloads handed to `crate::listeners::trigger` by the Windows and
desktop adapters, field-for-field from the `serde_json::json!` literals in
the source. -/
inductive EventPayload where
  /-- `{"id", "title", "body", "actionTypeId", "extra"}` from
  `src/windows.rs` lines 355-361. -/
  | notificationShown (id : Int) (title : Option String)
      (body : Option String) (actionTypeId : Option String)
      (extra : List (String × JsonValue))
  /-- `{"actionId", "inputValue": null, "notification"}` from
  `src/windows.rs` lines 320-324. -/
  | actionPerformed (actionId : String) (inputValue : Option String)
      (notification : ActiveNotification)
  /-- `{"id", "data": notification.extra}` from `src/windows.rs`
  lines 333-336. -/
  | notificationClicked (id : Int) (data : List (String × JsonValue))

/-- The `ActiveNotification` captured by the Windows activation handler
(`src/windows.rs` lines 289-302): projected from the builder's
`NotificationData`, with `tag = id.toString`, an empty `data` map, and the
remaining fields copied. The `toString` of the id is abstracted as
`toString` on `Int`. -/
def activeNotificationOfData (data : NotificationData) :
    ActiveNotification :=
  { id := data.id
    tag := some (toString data.id)
    title := data.title
    body := data.body
    group := data.group
    group_summary := data.group_summary
    data := []
    extra := data.extra
    attachments := data.attachments
    action_type_id := data.action_type_id
    schedule := data.schedule
    sound := data.sound }

/-- Events emitted by a successful `NotificationsBuilder::show` on the
Windows adapter (`src/windows.rs` lines 259-367): after the native
`Show`/`AddToSchedule` call succeeds, exactly one `"notification"` event is
triggered (lines 354-364), on both the scheduled and the immediate path and
independently of the click-listener flag. -/
def windows_show_emitted_events (data : NotificationData) :
    List (String × EventPayload) :=
  [("notification",
    .notificationShown data.id data.title data.body data.action_type_id
      data.extra)]

/-- Events emitted by a successful `NotificationsBuilder::show` on the
desktop (notify-rust) adapter (`src/desktop.rs` lines 26-47): the function
builds and shows a notify-rust notification and returns; it contains no
`listeners::trigger` call, so no event is emitted. -/
def desktop_show_emitted_events (_data : NotificationData) :
    List (String × EventPayload) :=
  []

/-- The Windows toast activation handler (`src/windows.rs` lines 304-348),
as a function of the activation's `arguments` string and the captured
notification: it computes `action_id` (`"tap"` when the arguments are
empty), always triggers `"actionPerformed"`, and additionally triggers
`"notificationClicked"` exactly when the arguments are empty. -/
def windows_activation_handler (notification : ActiveNotification)
    (arguments : String) : List (String × EventPayload) :=
  let action_id := if arguments = "" then "tap" else arguments
  [("actionPerformed",
    .actionPerformed action_id none notification)] ++
    (if arguments = "" then
      [("notificationClicked",
        .notificationClicked notification.id notification.extra)]
    else [])

/-! ## `ScheduleEvery` serialization (`src/models.rs`, C10) -/

/-- From `src/models.rs` `impl Display for ScheduleEvery` (lines 62-79);
`impl Serialize` (lines 81-88) serializes exactly this string. -/
def ScheduleEvery.toDisplayString : ScheduleEvery → String
  | .year => "year"
  | .month => "month"
  | .twoWeeks => "twoWeeks"
  | .week => "week"
  | .day => "day"
  | .hour => "hour"
  | .minute => "minute"
  | .second => "second"

/-- ASCII lowercasing of one character, the effect of Rust's
`str::to_lowercase` on the ASCII strings involved here. -/
def asciiLower (c : Char) : Char :=
  if 'A' ≤ c ∧ c ≤ 'Z' then Char.ofNat (c.toNat + 32) else c

/-- Rust `String::to_lowercase`, modelled on its ASCII behavior (every
string compared against by the deserializer is ASCII). -/
def rustToLowercase (s : String) : String :=
  String.mk (s.data.map asciiLower)

/-- From `src/models.rs` `impl Serialize for ScheduleEvery` (lines 81-88):
`serialize_str(self.to_string())`. -/
def ScheduleEvery.serialize (v : ScheduleEvery) : String :=
  v.toDisplayString

/-- From `src/models.rs` `impl Deserialize for ScheduleEvery`
(lines 90-108): lowercase the input string, then match it against the eight
variant names; anything else is a custom deserialization error. -/
def ScheduleEvery.deserialize (s : String) : Except String ScheduleEvery :=
  match rustToLowercase s with
  | "year" => .ok .year
  | "month" => .ok .month
  | "twoweeks" => .ok .twoWeeks
  | "week" => .ok .week
  | "day" => .ok .day
  | "hour" => .ok .hour
  | "minute" => .ok .minute
  | "second" => .ok .second
  | _ => .error ("unknown every kind " ++ s)

/-- C5: on every platform adapter lacking channel support (Windows, desktop
notify-rust, macOS), `create_channel`, `delete_channel` and `list_channels`
return the platform-named unsupported error for every input, and never
return `Ok`. -/
theorem channel_ops_unsupported (channel : Channel) (id : String) :
    (windows_create_channel channel =
        .error "Notification channels are not supported on Windows" ∧
      (windows_create_channel channel).isOk = false ∧
      windows_delete_channel id =
        .error "Notification channels are not supported on Windows" ∧
      (windows_delete_channel id).isOk = false ∧
      windows_list_channels =
        .error "Notification channels are not supported on Windows" ∧
      windows_list_channels.isOk = false) ∧
    (desktop_create_channel channel =
        .error "Notification channels are not supported with notify-rust" ∧
      (desktop_create_channel channel).isOk = false ∧
      desktop_delete_channel id =
        .error "Notification channels are not supported with notify-rust" ∧
      (desktop_delete_channel id).isOk = false ∧
      desktop_list_channels =
        .error "Notification channels are not supported with notify-rust" ∧
      desktop_list_channels.isOk = false) ∧
    (macos_create_channel channel =
        .error "Notification channels are not supported on macOS" ∧
      (macos_create_channel channel).isOk = false ∧
      macos_delete_channel id =
        .error "Notification channels are not supported on macOS" ∧
      (macos_delete_channel id).isOk = false ∧
      macos_list_channels =
        .error "Notification channels are not supported on macOS" ∧
      macos_list_channels.isOk = false) :=
  ⟨⟨rfl, rfl, rfl, rfl, rfl, rfl⟩, ⟨rfl, rfl, rfl, rfl, rfl, rfl⟩,
    ⟨rfl, rfl, rfl, rfl, rfl, rfl⟩⟩

/-- C6: when the notification's `action_type_id` names an id missing from
the action-type registry, the toast is built with no `<actions>` element
(the row is silently omitted, with no error); when the id is registered,
exactly one `<actions>` element is built, containing one `<action>` element
per registered `Action`. -/
theorem build_toast_xml_action_row (data : NotificationData)
    (action_types : List (String × ActionType)) (atid : String)
    (h : data.action_type_id = some atid) :
    (action_types.lookup atid = none →
      (build_toast_xml data action_types).children.filter
        (XmlNode.isElem "actions") = []) ∧
    (∀ t, action_types.lookup atid = some t →
      (build_toast_xml data action_types).children.filter
          (XmlNode.isElem "actions") =
        [.element "actions" [] (t.actions.map actionElement)] ∧
      (XmlNode.element "actions" []
        (t.actions.map actionElement)).children.length =
        t.actions.length) := by
  constructor
  · intro hl
    cases hsil : data.silent <;> cases hsnd : data.sound <;>
      simp [build_toast_xml, h, hl, hsil, hsnd, XmlNode.children,
        XmlNode.isElem, List.filter_append]
  · intro t ht
    refine ⟨?_, by simp [XmlNode.children]⟩
    cases hsil : data.silent <;> cases hsnd : data.sound <;>
      simp [build_toast_xml, h, ht, hsil, hsnd, XmlNode.children,
        XmlNode.isElem, List.filter_append]

/-- C6 witness: a notification referencing the unregistered action type id
"confirm" against an empty registry builds a toast with no `<actions>`
element. -/
theorem build_toast_xml_action_row_witness :
    (build_toast_xml { id := 1, action_type_id := some "confirm" }
      []).children.filter (XmlNode.isElem "actions") = [] :=
  (build_toast_xml_action_row
    { id := 1, action_type_id := some "confirm" } [] "confirm" rfl).1 rfl

/-- C7 counterexample: the RNG draw 0 — one of the `2^32` equally likely
draws of `rand::random::<i32>()` — makes `NotificationData::default()`
produce the id 0, so the id is not always non-zero. -/
theorem default_id_zero_possible : (NotificationData.mkDefault 0).id = 0 :=
  rfl

/-- C7 amended: `NotificationData::default()` (and deserialization without
an explicit id, which uses the same `default_id` function) draws the id
uniformly from all `2^32` two's-complement `i32` values; the id is in `i32`
range, every non-id field takes its empty default, and the id is zero
exactly when the raw 32-bit draw is zero — zero is possible, so a non-zero
id is only overwhelmingly likely, not guaranteed. -/
theorem default_id_random_i32 (randomBits : Nat) :
    (-(2 ^ 31) ≤ (NotificationData.mkDefault randomBits).id ∧
      (NotificationData.mkDefault randomBits).id < 2 ^ 31) ∧
    ((NotificationData.mkDefault randomBits).id = 0 ↔
      randomBits % 2 ^ 32 = 0) ∧
    (NotificationData.mkDefault randomBits).title = none ∧
    (NotificationData.mkDefault randomBits).body = none ∧
    (NotificationData.mkDefault randomBits).schedule = none ∧
    (NotificationData.mkDefault randomBits).extra = [] := by
  have hid : (NotificationData.mkDefault randomBits).id =
      i32OfBits randomBits := rfl
  refine ⟨?_, ?_, rfl, rfl, rfl, rfl⟩ <;> rw [hid] <;>
    simp only [i32OfBits] <;> split <;> omega

/-- C8 counterexample: the desktop (notify-rust) adapter's `show` contains
no `listeners::trigger` call and emits no "notification" event, refuting
the claim for that platform adapter. -/
theorem desktop_show_emits_no_event :
    desktop_show_emitted_events
      { id := 42, title := some "hello", body := some "world" } = [] := rfl

/-- C8 amended: on the Windows adapter every successful `show()` emits
exactly one "notification" event through the listener router, carrying the
notification's id, title, body, actionTypeId and extra, independent of the
click-listener flag; the desktop (notify-rust) adapter's `show()` emits no
event at all. -/
theorem windows_show_notification_event (data : NotificationData) :
    (windows_show_emitted_events data).map Prod.fst = ["notification"] ∧
    ("notification",
      EventPayload.notificationShown data.id data.title data.body
        data.action_type_id data.extra) ∈
      windows_show_emitted_events data ∧
    desktop_show_emitted_events data = [] := by
  simp [windows_show_emitted_events, desktop_show_emitted_events]

/-- C9: the Windows toast activation handler always triggers
"actionPerformed" whose actionId is the activation's arguments string, or
the literal "tap" when the arguments are empty, carrying the full captured
notification projection; and it triggers "notificationClicked" (with the
notification's id and extra) if and only if the arguments string is
empty. -/
theorem windows_activation_events (n : ActiveNotification)
    (args : String) :
    ("actionPerformed",
      EventPayload.actionPerformed (if args = "" then "tap" else args)
        none n) ∈ windows_activation_handler n args ∧
    (("notificationClicked",
      EventPayload.notificationClicked n.id n.extra) ∈
        windows_activation_handler n args ↔ args = "") ∧
    (windows_activation_handler n args).map Prod.fst =
      (if args = "" then ["actionPerformed", "notificationClicked"]
       else ["actionPerformed"]) := by
  by_cases h : args = "" <;>
    simp [windows_activation_handler, h]

/-- C10: serializing a `ScheduleEvery` and deserializing the result yields
the original variant; deserialization lowercases its input before matching,
so any letter casing of a variant name (e.g. "twoWeeks", "TWOWEEKS",
"twoweeks") parses to that variant; and any string not matching a variant
name after lowercasing is a deserialization error. -/
theorem schedule_every_serde (v : ScheduleEvery) (s : String) :
    ScheduleEvery.deserialize (ScheduleEvery.serialize v) = .ok v ∧
    (rustToLowercase s = rustToLowercase v.toDisplayString →
      ScheduleEvery.deserialize s = .ok v) ∧
    (ScheduleEvery.deserialize "twoWeeks" = .ok .twoWeeks ∧
      ScheduleEvery.deserialize "TWOWEEKS" = .ok .twoWeeks ∧
      ScheduleEvery.deserialize "twoweeks" = .ok .twoWeeks) ∧
    (rustToLowercase s ∉ ["year", "month", "twoweeks", "week", "day",
        "hour", "minute", "second"] →
      ∃ e, ScheduleEvery.deserialize s = .error e) := by
  refine ⟨?_, ?_, ⟨rfl, rfl, rfl⟩, ?_⟩
  · cases v <;> rfl
  · intro h
    cases v <;> (unfold ScheduleEvery.deserialize; rw [h]) <;> rfl
  · intro hno
    unfold ScheduleEvery.deserialize
    split
    all_goals
      first
      | exact ⟨_, rfl⟩
      | (rename_i heq; exact absurd (by rw [heq]; simp) hno)

/-- C10 witness: the mixed-casing "TwOwEeKs" parses to `TwoWeeks`, the
round-trip holds at `TwoWeeks`, and "banana" is a deserialization error. -/
theorem schedule_every_serde_witness :
    ScheduleEvery.deserialize (ScheduleEvery.serialize .twoWeeks) =
      .ok .twoWeeks ∧
    ScheduleEvery.deserialize "TwOwEeKs" = .ok .twoWeeks ∧
    ∃ e, ScheduleEvery.deserialize "banana" = .error e :=
  ⟨(schedule_every_serde .twoWeeks "TwOwEeKs").1,
   (schedule_every_serde .twoWeeks "TwOwEeKs").2.1 rfl,
   (schedule_every_serde .twoWeeks "banana").2.2.2 (by decide)⟩
